import Mathlib

/-!
Shallow embedding of the `ntp-timestamp` library (`src/lib.rs`).

Machine integers are modelled as `Nat` with explicit `% 2 ^ 32` / `% 2 ^ 64`
reductions exactly where the Rust code truncates (an `as u32` / `as u64` cast,
or a `u64` operation that may wrap in release builds).  `core::time::Duration`
is modelled as a pair of whole seconds and sub-second nanoseconds together with
the constructor and addition semantics of the Rust type.
-/

namespace NtpSpec

/-- Seconds between the NTP epoch (1 Jan 1900) and the Unix epoch (1 Jan 1970);
the value of the source constant `NTP_EPOCH_DELTA` in whole seconds. -/
def NTP_EPOCH_DELTA : Nat := 2208988800

/-- Source constant `FRACTION_BITMASK = 0x0000_0000_FFFF_FFFF`. -/
def FRACTION_BITMASK : Nat := 0xFFFFFFFF

/-- Source constant `SECONDS_BITMASK = 0xFFFF_FFFF_0000_0000`. -/
def SECONDS_BITMASK : Nat := 0xFFFFFFFF00000000

/-- Source constant `SEC_AS_MS`. -/
def SEC_AS_MS : Nat := 1000

/-- Source constant `SEC_AS_US`. -/
def SEC_AS_US : Nat := 1000000

/-- Source constant `SEC_AS_NS`. -/
def SEC_AS_NS : Nat := 1000000000

/-- Source constant `SEC_AS_PS`. -/
def SEC_AS_PS : Nat := 1000000000000

/-- The value of `u32::MAX` (as used via `u64::from(u32::MAX)` in the source). -/
def U32_MAX : Nat := 2 ^ 32 - 1

/-- The Rust struct `NTPTimestamp`: two `u32` fields, modelled as `Nat` with
`< 2 ^ 32` bounds supplied as hypotheses at use sites. -/
structure NTPTimestamp where
  seconds : Nat
  fraction : Nat
deriving DecidableEq

/-- Model of `core::time::Duration`: whole seconds plus sub-second nanoseconds.
Values built by the constructors below keep `nanos < 10 ^ 9`. -/
structure Duration where
  secs : Nat
  nanos : Nat
deriving DecidableEq

/-- `Duration::from_secs`. -/
def Duration.from_secs (s : Nat) : Duration := ⟨s, 0⟩

/-- `Duration::from_nanos`: normalises total nanoseconds into the pair. -/
def Duration.from_nanos (n : Nat) : Duration := ⟨n / 1000000000, n % 1000000000⟩

/-- `Duration::add` (the `+` used in `to_duration`): adds fields, carrying one
second when the nanosecond total reaches `10 ^ 9`. -/
def Duration.add (a b : Duration) : Duration :=
  let n := a.nanos + b.nanos
  if n < 1000000000 then ⟨a.secs + b.secs, n⟩ else ⟨a.secs + b.secs + 1, n - 1000000000⟩

/-- `Duration::as_secs`. -/
def Duration.as_secs (d : Duration) : Nat := d.secs

/-- `Duration::subsec_micros`. -/
def Duration.subsec_micros (d : Duration) : Nat := d.nanos / 1000

/-- `NTPTimestamp::new`. -/
def NTPTimestamp.new (seconds fraction : Nat) : NTPTimestamp := ⟨seconds, fraction⟩

/-- `NTPTimestamp::encode_to_u64`: `(u64::from(high) << 32) | u64::from(low)`.
For `high, low < 2 ^ 32` the result is below `2 ^ 64`, so no `u64` reduction
is needed. -/
def NTPTimestamp.encode_to_u64 (high low : Nat) : Nat :=
  high <<< 32 ||| low

/-- `NTPTimestamp::decode_from_u64`: mask and shift the two 32-bit halves. -/
def NTPTimestamp.decode_from_u64 (ts : Nat) : NTPTimestamp :=
  NTPTimestamp.new ((ts &&& SECONDS_BITMASK) >>> 32) (ts &&& FRACTION_BITMASK)

/-- `NTPTimestamp::timestamp`. -/
def NTPTimestamp.timestamp (t : NTPTimestamp) : Nat :=
  NTPTimestamp.encode_to_u64 t.seconds t.fraction

/-- `NTPTimestamp::from_ntp_timestamp`. -/
def NTPTimestamp.from_ntp_timestamp (ts : Nat) : NTPTimestamp :=
  NTPTimestamp.decode_from_u64 ts

/-- `NTPTimestamp::from_unix_sec`: `(ts + NTP_EPOCH_DELTA.as_secs()) as u32`.
The `u64` addition wraps modulo `2 ^ 64` and the cast truncates
modulo `2 ^ 32`. -/
def NTPTimestamp.from_unix_sec (ts : Nat) : Nat :=
  ((ts + NTP_EPOCH_DELTA) % 2 ^ 64) % 2 ^ 32

/-- `NTPTimestamp::from_unix_timestamp`. -/
def NTPTimestamp.from_unix_timestamp (ts : Nat) : NTPTimestamp :=
  NTPTimestamp.new (NTPTimestamp.from_unix_sec ts) 0

/-- `NTPTimestamp::to_unix_timestamp`: the `u64` subtraction
`u64::from(seconds) - NTP_EPOCH_DELTA.as_secs()` is modelled with wrapping
(release semantics), and `u64::from(fraction) / u32::MAX as u64` divides by
`2 ^ 32 - 1`. -/
def NTPTimestamp.to_unix_timestamp (t : NTPTimestamp) : Nat :=
  let seconds := (t.seconds + (2 ^ 64 - NTP_EPOCH_DELTA)) % 2 ^ 64
  let fraction := t.fraction / U32_MAX
  (seconds + fraction) % 2 ^ 64

/-- `NTPTimestamp::micros_fraction`: `((ts * scale) / us) as u32` with
`scale = u64::from(u32::MAX)` and `us = u64::from(SEC_AS_US)`. -/
def NTPTimestamp.micros_fraction (ts : Nat) : Nat :=
  ((ts * U32_MAX) / SEC_AS_US) % 2 ^ 32

/-- `NTPTimestamp::from_unix_duration`. -/
def NTPTimestamp.from_unix_duration (d : Duration) : NTPTimestamp :=
  NTPTimestamp.new (NTPTimestamp.from_unix_sec d.as_secs)
    (NTPTimestamp.micros_fraction d.subsec_micros)

/-- `NTPTimestamp::fraction_as_ms`: `(u64::from(fraction) * SEC_AS_MS) >> 32`. -/
def NTPTimestamp.fraction_as_ms (t : NTPTimestamp) : Nat :=
  (t.fraction * SEC_AS_MS) >>> 32

/-- `NTPTimestamp::fraction_as_us`: `(u64::from(fraction) * u64::from(SEC_AS_US)) >> 32`. -/
def NTPTimestamp.fraction_as_us (t : NTPTimestamp) : Nat :=
  (t.fraction * SEC_AS_US) >>> 32

/-- `NTPTimestamp::fraction_as_ns`: `(u64::from(fraction) * SEC_AS_NS) >> 32`. -/
def NTPTimestamp.fraction_as_ns (t : NTPTimestamp) : Nat :=
  (t.fraction * SEC_AS_NS) >>> 32

/-- `NTPTimestamp::fraction_as_ps`: 128-bit intermediate, shifted, then cast
`as u64` (the final `% 2 ^ 64`). -/
def NTPTimestamp.fraction_as_ps (t : NTPTimestamp) : Nat :=
  ((t.fraction * SEC_AS_PS) >>> 32) % 2 ^ 64

/-- `NTPTimestamp::to_duration`: `Duration::from_secs(seconds) +
Duration::from_nanos(fraction_as_ns())`. -/
def NTPTimestamp.to_duration (t : NTPTimestamp) : Duration :=
  (Duration.from_secs t.seconds).add (Duration.from_nanos t.fraction_as_ns)

/-- `NTPTimestamp::as_nanoseconds`: `u64` arithmetic
`u64::from(seconds) * SEC_AS_NS + fraction_as_ns()`, wrapping modulo `2 ^ 64`
in release semantics. -/
def NTPTimestamp.as_nanoseconds (t : NTPTimestamp) : Nat :=
  (t.seconds * SEC_AS_NS + t.fraction_as_ns) % 2 ^ 64

/-- The strict order produced by `derive(PartialOrd, Ord)` on the struct:
lexicographic on `(seconds, fraction)` in field order. -/
def NTPTimestamp.lt (a b : NTPTimestamp) : Prop :=
  a.seconds < b.seconds ∨ (a.seconds = b.seconds ∧ a.fraction < b.fraction)

instance (a b : NTPTimestamp) : Decidable (NTPTimestamp.lt a b) := by
  unfold NTPTimestamp.lt
  infer_instance

/-! ### Arithmetic characterisations of the bit-level operations -/

/-- Packing a low half below `2 ^ 32` next to a shifted high half is addition. -/
theorem shiftLeft32_lor_eq_add (s f : Nat) (hf : f < 2 ^ 32) :
    s <<< 32 ||| f = s * 2 ^ 32 + f := by
  apply Nat.eq_of_testBit_eq
  intro i
  rw [Nat.mul_comm s (2 ^ 32), Nat.testBit_mul_pow_two_add s hf i]
  simp only [Nat.testBit_or, Nat.testBit_shiftLeft]
  by_cases h : i < 32
  · have h2 : ¬ (32 ≤ i) := by omega
    simp [h, h2]
  · have hge : 32 ≤ i := by omega
    have hfi : f.testBit i = false := by
      apply Nat.testBit_lt_two_pow
      exact lt_of_lt_of_le hf (Nat.pow_le_pow_right (by norm_num) hge)
    simp [h, hge, hfi]

/-- Masking with the low 32-bit mask is reduction modulo `2 ^ 32`. -/
theorem and_fraction_mask (ts : Nat) : ts &&& FRACTION_BITMASK = ts % 2 ^ 32 := by
  have h : FRACTION_BITMASK = 2 ^ 32 - 1 := by norm_num [FRACTION_BITMASK]
  rw [h, Nat.and_pow_two_sub_one_eq_mod]

/-- Masking with the high 32-bit mask and shifting extracts bits 32..63. -/
theorem and_seconds_mask_shift (ts : Nat) :
    (ts &&& SECONDS_BITMASK) >>> 32 = ts / 2 ^ 32 % 2 ^ 32 := by
  have hmask : SECONDS_BITMASK = (2 ^ 32 - 1) <<< 32 := by
    rw [Nat.shiftLeft_eq]
    norm_num [SECONDS_BITMASK]
  apply Nat.eq_of_testBit_eq
  intro i
  rw [hmask, Nat.testBit_shiftRight, Nat.testBit_and, Nat.testBit_shiftLeft,
    Nat.testBit_mod_two_pow, ← Nat.shiftRight_eq_div_pow, Nat.testBit_shiftRight]
  have h2 : 32 + i - 32 = i := by omega
  rw [h2, Nat.testBit_two_pow_sub_one]
  by_cases h : i < 32
  · simp [h, Nat.le_add_right]
  · simp [h, Nat.le_add_right]

/-- Truncating multiply-shift by a fraction below one stays below the scale. -/
theorem mul_shiftRight32_lt (f k : Nat) (hf : f < 2 ^ 32) (hk : 0 < k) :
    (f * k) >>> 32 < k := by
  rw [Nat.shiftRight_eq_div_pow]
  apply Nat.div_lt_of_lt_mul
  exact (Nat.mul_lt_mul_right hk).mpr hf

/-- `encode_to_u64` as arithmetic: high half scaled by `2 ^ 32` plus low half. -/
theorem encode_to_u64_eq_add (s f : Nat) (hf : f < 2 ^ 32) :
    NTPTimestamp.encode_to_u64 s f = s * 2 ^ 32 + f :=
  shiftLeft32_lor_eq_add s f hf

/-- `timestamp` of `new s f` as arithmetic. -/
theorem timestamp_new_eq (s f : Nat) (hf : f < 2 ^ 32) :
    (NTPTimestamp.new s f).timestamp = s * 2 ^ 32 + f :=
  shiftLeft32_lor_eq_add s f hf

/-- `decode_from_u64` as arithmetic: quotient and remainder by `2 ^ 32`. -/
theorem decode_from_u64_eq (ts : Nat) :
    NTPTimestamp.decode_from_u64 ts =
      NTPTimestamp.new (ts / 2 ^ 32 % 2 ^ 32) (ts % 2 ^ 32) := by
  unfold NTPTimestamp.decode_from_u64
  rw [and_fraction_mask, and_seconds_mask_shift]

/-- Lexicographic order on the fields agrees with order of the packed values. -/
theorem packed_lt_of_sec_lt (s1 f1 s2 f2 : Nat) (hf1 : f1 < 2 ^ 32) (h : s1 < s2) :
    s1 * 2 ^ 32 + f1 < s2 * 2 ^ 32 + f2 := by
  have h1 : s1 * 2 ^ 32 + f1 < (s1 + 1) * 2 ^ 32 := by
    rw [Nat.add_mul, Nat.one_mul]
    omega
  have h2 : (s1 + 1) * 2 ^ 32 ≤ s2 * 2 ^ 32 := Nat.mul_le_mul_right _ h
  omega

/-! ### Claim theorems -/

/-- C1: decoding the packed 64-bit integer produced by encoding `new(s, f)`
returns a timestamp equal to `new(s, f)` in both fields; the packed form is
exactly `(s << 32) | f = s * 2 ^ 32 + f`; and every 64-bit input decodes and
re-encodes to itself, so the pair is a lossless total bijection. -/
theorem C1_encode_decode_bijection (s f : Nat) (hs : s < 2 ^ 32) (hf : f < 2 ^ 32) :
    NTPTimestamp.from_ntp_timestamp ((NTPTimestamp.new s f).timestamp) =
      NTPTimestamp.new s f ∧
    (NTPTimestamp.new s f).timestamp = s * 2 ^ 32 + f ∧
    (∀ ts : Nat, ts < 2 ^ 64 →
      (NTPTimestamp.from_ntp_timestamp ts).timestamp = ts) := by
  have hpack : (NTPTimestamp.new s f).timestamp = s * 2 ^ 32 + f :=
    encode_to_u64_eq_add s f hf
  refine ⟨?_, hpack, ?_⟩
  · rw [NTPTimestamp.from_ntp_timestamp, hpack, decode_from_u64_eq]
    have hdiv : (s * 2 ^ 32 + f) / 2 ^ 32 = s := by
      rw [Nat.mul_comm s (2 ^ 32), Nat.mul_add_div (by norm_num),
        Nat.div_eq_of_lt hf]
      omega
    have hmod : (s * 2 ^ 32 + f) % 2 ^ 32 = f := by
      rw [Nat.mul_comm s (2 ^ 32), Nat.mul_add_mod, Nat.mod_eq_of_lt hf]
    rw [hdiv, hmod, Nat.mod_eq_of_lt hs]
  · intro ts hts
    rw [NTPTimestamp.from_ntp_timestamp, decode_from_u64_eq]
    have hq : ts / 2 ^ 32 < 2 ^ 32 := by
      apply Nat.div_lt_of_lt_mul
      calc ts < 2 ^ 64 := hts
        _ = 2 ^ 32 * 2 ^ 32 := by norm_num
    rw [Nat.mod_eq_of_lt hq]
    rw [NTPTimestamp.timestamp]
    have henc := encode_to_u64_eq_add (ts / 2 ^ 32) (ts % 2 ^ 32)
      (Nat.mod_lt ts (by norm_num))
    calc NTPTimestamp.encode_to_u64 (NTPTimestamp.new (ts / 2 ^ 32) (ts % 2 ^ 32)).seconds
          (NTPTimestamp.new (ts / 2 ^ 32) (ts % 2 ^ 32)).fraction
        = ts / 2 ^ 32 * 2 ^ 32 + ts % 2 ^ 32 := henc
      _ = ts := by rw [Nat.mul_comm]; exact Nat.div_add_mod ts (2 ^ 32)

/-- C1 witness: the round trip evaluated at the documented example pair. -/
theorem C1_encode_decode_bijection_witness :
    NTPTimestamp.from_ntp_timestamp ((NTPTimestamp.new 1000000 1073741824).timestamp) =
      NTPTimestamp.new 1000000 1073741824 ∧
    (NTPTimestamp.new 1000000 1073741824).timestamp = 1000000 * 2 ^ 32 + 1073741824 ∧
    (∀ ts : Nat, ts < 2 ^ 64 →
      (NTPTimestamp.from_ntp_timestamp ts).timestamp = ts) :=
  C1_encode_decode_bijection 1000000 1073741824 (by norm_num) (by norm_num)

/-- C4: `from_unix_timestamp` adds the epoch delta, truncates modulo `2 ^ 32`
with silent wraparound, and sets the fraction to 0; at input 1640995200 the
seconds field is 3849984000. -/
theorem C4_from_unix_timestamp (ts : Nat) :
    NTPTimestamp.from_unix_timestamp ts =
      NTPTimestamp.new ((ts + 2208988800) % 2 ^ 32) 0 ∧
    (NTPTimestamp.from_unix_timestamp 1640995200).seconds = 3849984000 := by
  constructor
  · rw [NTPTimestamp.from_unix_timestamp, NTPTimestamp.from_unix_sec,
      Nat.mod_mod_of_dvd _ (by norm_num : (2 ^ 32 : Nat) ∣ 2 ^ 64)]
    rfl
  · decide

/-- C6: the derived order is lexicographic on `(seconds, fraction)` and agrees
with unsigned 64-bit numeric ordering of the packed forms. -/
theorem C6_ordering (s1 f1 s2 f2 : Nat) (hs1 : s1 < 2 ^ 32) (hf1 : f1 < 2 ^ 32)
    (hs2 : s2 < 2 ^ 32) (hf2 : f2 < 2 ^ 32) :
    (NTPTimestamp.lt (NTPTimestamp.new s1 f1) (NTPTimestamp.new s2 f2) ↔
      (s1 < s2 ∨ (s1 = s2 ∧ f1 < f2))) ∧
    (NTPTimestamp.lt (NTPTimestamp.new s1 f1) (NTPTimestamp.new s2 f2) ↔
      (NTPTimestamp.new s1 f1).timestamp < (NTPTimestamp.new s2 f2).timestamp) := by
  have hlex : NTPTimestamp.lt (NTPTimestamp.new s1 f1) (NTPTimestamp.new s2 f2) ↔
      (s1 < s2 ∨ (s1 = s2 ∧ f1 < f2)) := Iff.rfl
  refine ⟨hlex, ?_⟩
  rw [hlex, timestamp_new_eq s1 f1 hf1, timestamp_new_eq s2 f2 hf2]
  constructor
  · rintro (h | ⟨rfl, h⟩)
    · exact packed_lt_of_sec_lt s1 f1 s2 f2 hf1 h
    · exact Nat.add_lt_add_left h _
  · intro h
    rcases Nat.lt_trichotomy s1 s2 with hlt | heq | hgt
    · exact Or.inl hlt
    · subst heq
      exact Or.inr ⟨rfl, by omega⟩
    · exact absurd (packed_lt_of_sec_lt s2 f2 s1 f1 hf2 hgt) (by omega)

/-- C6 witness: the ordering equivalences evaluated at a concrete pair. -/
theorem C6_ordering_witness :
    (NTPTimestamp.lt (NTPTimestamp.new 1 5) (NTPTimestamp.new 2 0) ↔
      ((1 : Nat) < 2 ∨ ((1 : Nat) = 2 ∧ (5 : Nat) < 0))) ∧
    (NTPTimestamp.lt (NTPTimestamp.new 1 5) (NTPTimestamp.new 2 0) ↔
      (NTPTimestamp.new 1 5).timestamp < (NTPTimestamp.new 2 0).timestamp) :=
  C6_ordering 1 5 2 0 (by norm_num) (by norm_num) (by norm_num) (by norm_num)

/-- C2 counterexample: the claim predicts `to_unix_timestamp` equals
`seconds - 2208988800 + fraction / 2 ^ 32` (a fractional contribution of 0 for
every fraction); at `new(2208988800, 2 ^ 32 - 1)` the code returns 1 while the
claimed formula gives 0. -/
theorem C2_counterexample :
    (NTPTimestamp.new 2208988800 4294967295).to_unix_timestamp ≠
      2208988800 - 2208988800 + 4294967295 / 2 ^ 32 := by decide

/-- C2 (amended): for `seconds ≥ 2208988800`, `to_unix_timestamp` returns
`seconds - 2208988800 + fraction / (2 ^ 32 - 1)`: division is by
`u32::MAX = 2 ^ 32 - 1`, so the fractional contribution is 0 for every
fraction except `2 ^ 32 - 1`, where it is 1; and
`new(3849984000, 0).to_unix_timestamp() = 1640995200`. -/
theorem C2_to_unix_timestamp (s f : Nat) (hdelta : 2208988800 ≤ s)
    (hs : s < 2 ^ 32) (hf : f < 2 ^ 32) :
    (NTPTimestamp.new s f).to_unix_timestamp = s - 2208988800 + f / (2 ^ 32 - 1) ∧
    (f < 2 ^ 32 - 1 → f / (2 ^ 32 - 1) = 0) ∧
    (f = 2 ^ 32 - 1 → f / (2 ^ 32 - 1) = 1) ∧
    (NTPTimestamp.new 3849984000 0).to_unix_timestamp = 1640995200 := by
  refine ⟨?_, ?_, ?_, by decide⟩
  · rw [NTPTimestamp.to_unix_timestamp]
    show ((s + (2 ^ 64 - NTP_EPOCH_DELTA)) % 2 ^ 64 + f / U32_MAX) % 2 ^ 64 = _
    rw [NTP_EPOCH_DELTA, U32_MAX]
    have hwrap : (s + (2 ^ 64 - 2208988800)) % 2 ^ 64 = s - 2208988800 := by
      have hsplit : s + (2 ^ 64 - 2208988800) = 2 ^ 64 + (s - 2208988800) := by omega
      rw [hsplit, Nat.add_mod_left, Nat.mod_eq_of_lt (by omega)]
    rw [hwrap]
    have hfd : f / (2 ^ 32 - 1) ≤ 1 := by
      apply Nat.div_le_of_le_mul
      omega
    exact Nat.mod_eq_of_lt (by omega)
  · intro hlt
    exact Nat.div_eq_of_lt hlt
  · intro heq
    rw [heq]
    exact Nat.div_self (by norm_num)

/-- C2 witness: the amended statement evaluated at `new(3849984000, 2 ^ 32 - 1)`. -/
theorem C2_to_unix_timestamp_witness :
    (NTPTimestamp.new 3849984000 4294967295).to_unix_timestamp =
      3849984000 - 2208988800 + 4294967295 / (2 ^ 32 - 1) ∧
    ((4294967295 : Nat) < 2 ^ 32 - 1 → 4294967295 / (2 ^ 32 - 1) = 0) ∧
    ((4294967295 : Nat) = 2 ^ 32 - 1 → (4294967295 : Nat) / (2 ^ 32 - 1) = 1) ∧
    (NTPTimestamp.new 3849984000 0).to_unix_timestamp = 1640995200 :=
  C2_to_unix_timestamp 3849984000 4294967295 (by norm_num) (by norm_num) (by norm_num)

/-- C3 counterexample: the claim predicts the fraction field is
`microseconds * 2 ^ 32 / 1000000`; at a duration of 0.25 s (250000 μs) the
code produces 1073741823 while the claimed formula gives 1073741824. -/
theorem C3_counterexample :
    (NTPTimestamp.from_unix_duration ⟨0, 250000000⟩).fraction ≠
      250000 * 2 ^ 32 / 1000000 := by decide

/-- C3 (amended): `from_unix_duration` sets the fraction field to
`subsecond_microseconds * (2 ^ 32 - 1) / 1000000` — the scale factor is
`u32::MAX = 2 ^ 32 - 1`, not `2 ^ 32` — truncated, and the result already fits
in 32 bits so the final cast loses nothing; the seconds field is the
epoch-adjusted whole-second part truncated modulo `2 ^ 32`. -/
theorem C3_from_unix_duration (secs nanos : Nat) (hn : nanos < 1000000000) :
    NTPTimestamp.from_unix_duration ⟨secs, nanos⟩ =
      NTPTimestamp.new ((secs + 2208988800) % 2 ^ 32)
        (nanos / 1000 * (2 ^ 32 - 1) / 1000000) ∧
    nanos / 1000 * (2 ^ 32 - 1) / 1000000 < 2 ^ 32 := by
  have hmu : nanos / 1000 < 1000000 := by omega
  have hbound : nanos / 1000 * (2 ^ 32 - 1) / 1000000 < 2 ^ 32 := by
    apply Nat.div_lt_of_lt_mul
    calc nanos / 1000 * (2 ^ 32 - 1) ≤ 999999 * (2 ^ 32 - 1) :=
          Nat.mul_le_mul_right _ (by omega)
      _ < 1000000 * 2 ^ 32 := by norm_num
  refine ⟨?_, hbound⟩
  rw [NTPTimestamp.from_unix_duration, NTPTimestamp.from_unix_sec,
    Nat.mod_mod_of_dvd _ (by norm_num : (2 ^ 32 : Nat) ∣ 2 ^ 64)]
  show NTPTimestamp.new _ (NTPTimestamp.micros_fraction (Duration.subsec_micros ⟨secs, nanos⟩)) = _
  rw [NTPTimestamp.micros_fraction, Duration.subsec_micros, U32_MAX, SEC_AS_US]
  rw [Nat.mod_eq_of_lt hbound]
  rfl

/-- C3 witness: the amended statement evaluated at a 0.25 s duration. -/
theorem C3_from_unix_duration_witness :
    NTPTimestamp.from_unix_duration ⟨0, 250000000⟩ =
      NTPTimestamp.new ((0 + 2208988800) % 2 ^ 32)
        (250000000 / 1000 * (2 ^ 32 - 1) / 1000000) ∧
    (250000000 : Nat) / 1000 * (2 ^ 32 - 1) / 1000000 < 2 ^ 32 :=
  C3_from_unix_duration 0 250000000 (by norm_num)

/-- The nanosecond rescaling of a 32-bit fraction is a sub-second amount. -/
theorem fraction_as_ns_lt (s f : Nat) (hf : f < 2 ^ 32) :
    (NTPTimestamp.new s f).fraction_as_ns < 1000000000 :=
  mul_shiftRight32_lt f 1000000000 hf (by norm_num)

/-- `to_duration` never carries: the result is exactly the seconds field paired
with the nanosecond rescaling of the fraction. -/
theorem to_duration_eq (s f : Nat) (hf : f < 2 ^ 32) :
    (NTPTimestamp.new s f).to_duration = ⟨s, (f * 1000000000) >>> 32⟩ := by
  have hn : (f * 1000000000) >>> 32 < 1000000000 :=
    mul_shiftRight32_lt f 1000000000 hf (by norm_num)
  show (Duration.from_secs s).add (Duration.from_nanos ((f * 1000000000) >>> 32)) = _
  rw [Duration.from_secs, Duration.from_nanos, Duration.add]
  simp [Nat.div_eq_of_lt hn, Nat.mod_eq_of_lt hn, hn]

/-- The total-nanosecond value always fits in an unsigned 64-bit integer. -/
theorem as_nanoseconds_total_lt (s f : Nat) (hs : s < 2 ^ 32) (hf : f < 2 ^ 32) :
    s * 1000000000 + (NTPTimestamp.new s f).fraction_as_ns < 2 ^ 64 := by
  have hn : (NTPTimestamp.new s f).fraction_as_ns < 1000000000 :=
    fraction_as_ns_lt s f hf
  have hmul : s * 1000000000 ≤ 4294967295 * 1000000000 :=
    Nat.mul_le_mul_right _ (by omega)
  omega

/-- The wrapping `u64` arithmetic in `as_nanoseconds` never actually wraps. -/
theorem as_nanoseconds_eq (s f : Nat) (hs : s < 2 ^ 32) (hf : f < 2 ^ 32) :
    (NTPTimestamp.new s f).as_nanoseconds =
      s * 1000000000 + (NTPTimestamp.new s f).fraction_as_ns := by
  rw [NTPTimestamp.as_nanoseconds]
  exact Nat.mod_eq_of_lt (as_nanoseconds_total_lt s f hs hf)

/-- C5: `to_duration` returns exactly `seconds` whole seconds plus a
nanosecond remainder `(fraction * 10 ^ 9) >> 32`; at `new(1000000, 0x40000000)`
this is 1000000 whole seconds and 250000 microseconds of remainder. -/
theorem C5_to_duration (s f : Nat) (hs : s < 2 ^ 32) (hf : f < 2 ^ 32) :
    (NTPTimestamp.new s f).to_duration = ⟨s, (f * 1000000000) >>> 32⟩ ∧
    (NTPTimestamp.new 1000000 1073741824).to_duration.as_secs = 1000000 ∧
    (NTPTimestamp.new 1000000 1073741824).to_duration.subsec_micros = 250000 :=
  ⟨to_duration_eq s f hf, by decide, by decide⟩

/-- C5 witness: the duration conversion evaluated at the documented example. -/
theorem C5_to_duration_witness :
    (NTPTimestamp.new 1000000 1073741824).to_duration =
      ⟨1000000, (1073741824 * 1000000000) >>> 32⟩ ∧
    (NTPTimestamp.new 1000000 1073741824).to_duration.as_secs = 1000000 ∧
    (NTPTimestamp.new 1000000 1073741824).to_duration.subsec_micros = 250000 :=
  C5_to_duration 1000000 1073741824 (by norm_num) (by norm_num)

/-- C7: each fraction accessor is the truncating multiply-shift
`(fraction * unit_scale) >> 32`, the 128-bit picosecond intermediate truncated
to `u64` losslessly; at fraction `0x40000000` the values are 250, 250000,
250000000 and 250000000000. -/
theorem C7_fraction_accessors (s f : Nat) (hf : f < 2 ^ 32) :
    (NTPTimestamp.new s f).fraction_as_ms = (f * 1000) >>> 32 ∧
    (NTPTimestamp.new s f).fraction_as_us = (f * 1000000) >>> 32 ∧
    (NTPTimestamp.new s f).fraction_as_ns = (f * 1000000000) >>> 32 ∧
    (NTPTimestamp.new s f).fraction_as_ps = (f * 1000000000000) >>> 32 ∧
    (NTPTimestamp.new 0 1073741824).fraction_as_ms = 250 ∧
    (NTPTimestamp.new 0 1073741824).fraction_as_us = 250000 ∧
    (NTPTimestamp.new 0 1073741824).fraction_as_ns = 250000000 ∧
    (NTPTimestamp.new 0 1073741824).fraction_as_ps = 250000000000 := by
  refine ⟨rfl, rfl, rfl, ?_, by decide, by decide, by decide, by decide⟩
  rw [NTPTimestamp.fraction_as_ps]
  apply Nat.mod_eq_of_lt
  have hps : (f * 1000000000000) >>> 32 < 1000000000000 :=
    mul_shiftRight32_lt f 1000000000000 hf (by norm_num)
  calc ((NTPTimestamp.new s f).fraction * SEC_AS_PS) >>> 32
      = (f * 1000000000000) >>> 32 := rfl
    _ < 1000000000000 := hps
    _ < 2 ^ 64 := by norm_num

/-- C7 witness: the accessor formulas evaluated at fraction `0x40000000`. -/
theorem C7_fraction_accessors_witness :
    (NTPTimestamp.new 0 1073741824).fraction_as_ms = (1073741824 * 1000) >>> 32 ∧
    (NTPTimestamp.new 0 1073741824).fraction_as_us = (1073741824 * 1000000) >>> 32 ∧
    (NTPTimestamp.new 0 1073741824).fraction_as_ns = (1073741824 * 1000000000) >>> 32 ∧
    (NTPTimestamp.new 0 1073741824).fraction_as_ps = (1073741824 * 1000000000000) >>> 32 ∧
    (NTPTimestamp.new 0 1073741824).fraction_as_ms = 250 ∧
    (NTPTimestamp.new 0 1073741824).fraction_as_us = 250000 ∧
    (NTPTimestamp.new 0 1073741824).fraction_as_ns = 250000000 ∧
    (NTPTimestamp.new 0 1073741824).fraction_as_ps = 250000000000 :=
  C7_fraction_accessors 0 1073741824 (by norm_num)

/-- C8: `as_nanoseconds` equals `seconds * 10 ^ 9 + fraction_as_ns()` (the
`u64` arithmetic never wraps); `new(1, 0).as_nanoseconds() = 10 ^ 9`. -/
theorem C8_as_nanoseconds (s f : Nat) (hs : s < 2 ^ 32) (hf : f < 2 ^ 32) :
    (NTPTimestamp.new s f).as_nanoseconds =
      s * 1000000000 + (NTPTimestamp.new s f).fraction_as_ns ∧
    (NTPTimestamp.new 1 0).as_nanoseconds = 1000000000 :=
  ⟨as_nanoseconds_eq s f hs hf, by decide⟩

/-- C8 witness: the total-nanosecond formula evaluated at `new(1, 0)`. -/
theorem C8_as_nanoseconds_witness :
    (NTPTimestamp.new 1 0).as_nanoseconds =
      1 * 1000000000 + (NTPTimestamp.new 1 0).fraction_as_ns ∧
    (NTPTimestamp.new 1 0).as_nanoseconds = 1000000000 :=
  C8_as_nanoseconds 1 0 (by norm_num) (by norm_num)

/-- C9 counterexample: no pair of 32-bit fields makes
`seconds * 10 ^ 9 + fraction_as_ns()` reach `2 ^ 64`: the claimed overflow
input does not exist (the field is `u32`, so at most about 136 years of
seconds, and the total stays below `2 ^ 33 * 10 ^ 9 < 2 ^ 64`). -/
theorem C9_counterexample :
    ¬ ∃ s f : Nat, s < 2 ^ 32 ∧ f < 2 ^ 32 ∧
      2 ^ 64 ≤ s * 1000000000 + (NTPTimestamp.new s f).fraction_as_ns := by
  rintro ⟨s, f, hs, hf, hge⟩
  exact absurd hge (Nat.not_le.mpr (as_nanoseconds_total_lt s f hs hf))

/-- C9 (amended): `as_nanoseconds` never overflows the unsigned 64-bit result:
for every pair of 32-bit fields the total is below `2 ^ 64`, and the computed
value is exactly `seconds * 10 ^ 9 + fraction_as_ns()`. -/
theorem C9_no_overflow (s f : Nat) (hs : s < 2 ^ 32) (hf : f < 2 ^ 32) :
    s * 1000000000 + (NTPTimestamp.new s f).fraction_as_ns < 2 ^ 64 ∧
    (NTPTimestamp.new s f).as_nanoseconds =
      s * 1000000000 + (NTPTimestamp.new s f).fraction_as_ns :=
  ⟨as_nanoseconds_total_lt s f hs hf, as_nanoseconds_eq s f hs hf⟩

/-- C9 witness: no overflow even at the maximal pair of fields. -/
theorem C9_no_overflow_witness :
    4294967295 * 1000000000 + (NTPTimestamp.new 4294967295 4294967295).fraction_as_ns
        < 2 ^ 64 ∧
    (NTPTimestamp.new 4294967295 4294967295).as_nanoseconds =
      4294967295 * 1000000000 +
        (NTPTimestamp.new 4294967295 4294967295).fraction_as_ns :=
  C9_no_overflow 4294967295 4294967295 (by norm_num) (by norm_num)

/-- C10: every fraction accessor returns strictly less than one second in its
unit, the nanosecond remainder in `to_duration` is a genuine sub-second amount
(no carry into the seconds), and the addition in `as_nanoseconds` stays below
`2 ^ 64`. -/
theorem C10_subsecond_bounds (s f : Nat) (hs : s < 2 ^ 32) (hf : f < 2 ^ 32) :
    (NTPTimestamp.new s f).fraction_as_ms < 1000 ∧
    (NTPTimestamp.new s f).fraction_as_us < 1000000 ∧
    (NTPTimestamp.new s f).fraction_as_ns < 1000000000 ∧
    (NTPTimestamp.new s f).fraction_as_ps < 1000000000000 ∧
    (NTPTimestamp.new s f).to_duration =
      ⟨s, (NTPTimestamp.new s f).fraction_as_ns⟩ ∧
    (NTPTimestamp.new s f).as_nanoseconds =
      s * 1000000000 + (NTPTimestamp.new s f).fraction_as_ns := by
  refine ⟨mul_shiftRight32_lt f 1000 hf (by norm_num),
    mul_shiftRight32_lt f 1000000 hf (by norm_num),
    mul_shiftRight32_lt f 1000000000 hf (by norm_num), ?_,
    to_duration_eq s f hf, as_nanoseconds_eq s f hs hf⟩
  calc (NTPTimestamp.new s f).fraction_as_ps
      ≤ (f * 1000000000000) >>> 32 := Nat.mod_le _ _
    _ < 1000000000000 := mul_shiftRight32_lt f 1000000000000 hf (by norm_num)

/-- C10 witness: the sub-second bounds evaluated at the maximal fraction. -/
theorem C10_subsecond_bounds_witness :
    (NTPTimestamp.new 0 4294967295).fraction_as_ms < 1000 ∧
    (NTPTimestamp.new 0 4294967295).fraction_as_us < 1000000 ∧
    (NTPTimestamp.new 0 4294967295).fraction_as_ns < 1000000000 ∧
    (NTPTimestamp.new 0 4294967295).fraction_as_ps < 1000000000000 ∧
    (NTPTimestamp.new 0 4294967295).to_duration =
      ⟨0, (NTPTimestamp.new 0 4294967295).fraction_as_ns⟩ ∧
    (NTPTimestamp.new 0 4294967295).as_nanoseconds =
      0 * 1000000000 + (NTPTimestamp.new 0 4294967295).fraction_as_ns :=
  C10_subsecond_bounds 0 4294967295 (by norm_num) (by norm_num)

end NtpSpec
